import Mathlib

/-!
Verification development for the push_it marketplace application.

The definitions below are shallow embeddings of the repository's Python
business logic: decimal amounts become exact rationals (`ℚ`), database rows
become entries of explicit lists, nullable columns become `Option`, and each
view/service function becomes a pure state-passing function.  External
effects (HTTP fetches of follower counts) are passed in as `Option ℕ`
oracle arguments.
-/

namespace PushIt

/-- `chLead pre l` decides whether `pre` is an initial segment of `l`
(helper for embedding Python's `in` substring tests). -/
def chLead : List Char → List Char → Bool
  | [], _ => true
  | _ :: _, [] => false
  | a :: as, b :: bs => a == b && chLead as bs

/-- `chSub needle hay` decides whether `needle` occurs contiguously inside
`hay`. -/
def chSub (needle : List Char) : List Char → Bool
  | [] => chLead needle []
  | b :: bs => chLead needle (b :: bs) || chSub needle bs

/-- Embedding of Python's `needle in hay` on strings. -/
def strSub (hay needle : String) : Bool :=
  chSub needle.toList hay.toList

/-- Banker's rounding of a rational to an integer, the default rounding mode
(`ROUND_HALF_EVEN`) of Python's `Decimal`. -/
def roundHalfEven (q : ℚ) : ℤ :=
  let f := ⌊q⌋
  let r := q - f
  if r < 1 / 2 then f
  else if 1 / 2 < r then f + 1
  else if f % 2 = 0 then f else f + 1

/-- Embedding of `Decimal.quantize(Decimal('0.01'))`: round to two decimal
places with banker's rounding. -/
def quantize2 (q : ℚ) : ℚ :=
  (roundHalfEven (q * 100) : ℚ) / 100

/-- A row of the `Currency` table (src/brands/models.py): ISO code, exchange
rate to the default currency, and the default flag. -/
structure Curr where
  code : String
  exchangeRate : ℚ
  isDefault : Bool
deriving Repr, DecidableEq

/-- Embedding of `Currency.get_default` (src/brands/models.py line 46): the
first row flagged default, else the first row with code `GHS`. -/
def getDefault (table : List Curr) : Option Curr :=
  match table.find? (fun c => c.isDefault) with
  | some c => some c
  | none => table.find? (fun c => c.code == "GHS")

/-- An argument of `convert_currency` (src/influencers/currency_utils.py):
Python callers pass a `Currency` object, a code string, or `None`. -/
inductive CurrRef where
  | absent
  | byCode (s : String)
  | byObj (c : Curr)
deriving Repr, DecidableEq

/-- The currency-resolution head of `convert_currency`: a code string is
looked up in the table, an object stands for itself, `None` stays
unresolved. -/
def resolveRef (table : List Curr) : CurrRef → Option Curr
  | .absent => none
  | .byCode s => table.find? (fun c => c.code == s)
  | .byObj c => some c

/-- First conversion step of `convert_currency`: bring the amount into the
default currency (multiply by the source's exchange rate when positive). -/
def convStep1 (d f : Curr) (amount : ℚ) : ℚ :=
  if f.code ≠ d.code then
    if 0 < f.exchangeRate then amount * f.exchangeRate else amount
  else amount

/-- Second conversion step of `convert_currency`: go from the default
currency to the target (divide by the target's exchange rate when
positive). -/
def convStep2 (d t : Curr) (x : ℚ) : ℚ :=
  if t.code ≠ d.code then
    if 0 < t.exchangeRate then x / t.exchangeRate else x
  else x

/-- Shallow embedding of `convert_currency`
(src/influencers/currency_utils.py lines 8-64).  Decimal arithmetic is
embedded as exact rational arithmetic and the final
`quantize(Decimal('0.01'))` as `quantize2`. -/
def convertCurrency (table : List Curr) (amount : ℚ) (fromRef toRef : CurrRef) : ℚ :=
  match resolveRef table fromRef, resolveRef table toRef with
  | some fromC, some toC =>
    if fromC.code = toC.code then amount
    else
      match getDefault table with
      | none => amount
      | some d => quantize2 (convStep2 d toC (convStep1 d fromC amount))
  | _, _ => amount

/-- Result record of the follower cross-checkers
(`FollowerVerificationResult`, src/influencers/follower_verification.py). -/
structure FollowerCheck where
  verified : Bool
  actualCount : Option ℕ
  userCount : ℕ
  discrepancy : ℕ
  method : String
deriving Repr, DecidableEq

/-- Common body of the four platform follower cross-checkers: the `fetched`
oracle stands for the platform-API fetch, `floorTol` is the fixed floor of
the tolerance band (`max(floorTol, declared * 0.05)`). -/
def followerVerifyFloor (floorTol : ℕ) (fetched : Option ℕ) (userCount : ℕ) : FollowerCheck :=
  match fetched with
  | none => ⟨false, none, userCount, 0, "manual"⟩
  | some actual =>
    let discrepancy := ((actual : ℤ) - (userCount : ℤ)).natAbs
    let allowed : ℚ := max (floorTol : ℚ) ((userCount : ℚ) * (5 / 100))
    ⟨decide ((discrepancy : ℚ) ≤ allowed), some actual, userCount, discrepancy, "api"⟩

/-- `TikTokFollowerVerifier.verify` (floor 100). -/
def tiktokFollowerVerify (fetched : Option ℕ) (userCount : ℕ) : FollowerCheck :=
  followerVerifyFloor 100 fetched userCount

/-- `InstagramFollowerVerifier.verify` (floor 100). -/
def instagramFollowerVerify (fetched : Option ℕ) (userCount : ℕ) : FollowerCheck :=
  followerVerifyFloor 100 fetched userCount

/-- `YouTubeFollowerVerifier.verify` (floor 50: the source comment reads
"YouTube counts change frequently"). -/
def youtubeFollowerVerify (fetched : Option ℕ) (userCount : ℕ) : FollowerCheck :=
  followerVerifyFloor 50 fetched userCount

/-- `FacebookFollowerVerifier.verify` (floor 100). -/
def facebookFollowerVerify (fetched : Option ℕ) (userCount : ℕ) : FollowerCheck :=
  followerVerifyFloor 100 fetched userCount

/-- Flags appended by the platform verifiers (src/influencers/verification.py).
Each constructor stands for one distinct message text of the source; the
source's substring dispatches (`'below minimum' in flag`,
`'Unable to verify' in flag`, `'you need at least' in flag.lower()`) each
match exactly one of these messages, so they are embedded as membership of
the corresponding constructor. -/
inductive VFlag where
  | followerMismatch
  | unableToVerify
  | belowMinimum
  | invalidHandle
  | badSampleUrl
  | veryHighFollowers
  | unusualEngagement
  | countCorrected
  | belowMinimumYt
deriving Repr, DecidableEq

/-- Result of a platform verification (`VerificationResult`,
src/influencers/verification.py; the `reason` display string is omitted). -/
structure VerifOutcome where
  passed : Bool
  confidence : ℚ
  flags : List VFlag
deriving Repr, DecidableEq

/-- The fields of a `PlatformConnection` row the verifiers read:
user-declared count, nullable API-verified count, handle, optional sample
post URL, engagement rate. -/
structure ConnRow where
  declared : ℕ
  verifiedCount : Option ℕ
  handle : String
  sampleUrl : Option String
  engagementRate : ℚ
deriving Repr, DecidableEq

/-- Python regex `^[a-zA-Z0-9._]+$` combined with `len(handle) >= 1`
(TikTok / Instagram / Facebook handle check). -/
def handleOkBase (h : String) : Bool :=
  !h.isEmpty && h.toList.all (fun c => c.isAlphanum || c == '.' || c == '_')

/-- Python regex `^[a-zA-Z0-9._-]+$` combined with `len(handle) >= 1`
(YouTube handle check also allows a dash). -/
def handleOkYt (h : String) : Bool :=
  !h.isEmpty && h.toList.all (fun c => c.isAlphanum || c == '.' || c == '_' || c == '-')

/-- The check battery of `TikTokVerifier.verify`
(src/influencers/verification.py lines 41-145): returns
(checks passed, total checks, flags, updated connection row).  Both source
fetch paths (direct OAuth fetch and `FollowerVerificationService`) apply
the same `max(100, declared * 0.05)` tolerance, so a single `fetched`
oracle models them. -/
def tiktokChecks (minFollowers : ℕ) (fetched : Option ℕ) (conn : ConnRow) :
    ℕ × ℕ × List VFlag × ConnRow :=
  let fr := tiktokFollowerVerify fetched conn.declared
  -- check 1: follower count cross-check; `if follower_result.verified and
  -- follower_result.actual_count:` (Python truthiness: a fetched count of 0
  -- falls through to the mismatch branch)
  let step1 : ℕ × List VFlag × ConnRow :=
    match fr.actualCount with
    | some a =>
      if fr.verified && !(a == 0) then (1, [], { conn with verifiedCount := some a })
      else (0, [VFlag.followerMismatch], { conn with verifiedCount := some a })
    | none => (0, [VFlag.unableToVerify], conn)
  match step1 with
  | (c1, flags1, conn1) =>
    -- check 2: minimum followers; `verified_followers_count or followers_count`
    let countToCheck :=
      match conn1.verifiedCount with
      | some v => if v = 0 then conn1.declared else v
      | none => conn1.declared
    let (c2, flags2) :=
      if minFollowers ≤ countToCheck then (1, ([] : List VFlag)) else (0, [VFlag.belowMinimum])
    -- check 3: handle format
    let (c3, flags3) :=
      if handleOkBase conn.handle then (1, ([] : List VFlag)) else (0, [VFlag.invalidHandle])
    -- check 4: sample post URL (only when provided)
    let (t4, c4, flags4) :=
      match conn.sampleUrl with
      | some url =>
        if strSub url.toLower "tiktok.com" then (1, 1, ([] : List VFlag))
        else (1, 0, [VFlag.badSampleUrl])
      | none => (0, 0, ([] : List VFlag))
    -- check 5: follower count reasonableness
    let (c5, flags5) :=
      if conn.declared < 1000000 then (1, ([] : List VFlag)) else (0, [VFlag.veryHighFollowers])
    -- check 6: engagement rate (only when positive)
    let (t6, c6, flags6) :=
      if 0 < conn.engagementRate then
        if 1 / 2 ≤ conn.engagementRate ∧ conn.engagementRate ≤ 10 then (1, 1, ([] : List VFlag))
        else (1, 0, [VFlag.unusualEngagement])
      else (0, 0, ([] : List VFlag))
    (c1 + c2 + c3 + c4 + c5 + c6, 4 + t4 + t6,
      flags1 ++ flags2 ++ flags3 ++ flags4 ++ flags5 ++ flags6, conn1)

/-- `TikTokVerifier.verify` (src/influencers/verification.py lines 145-155):
confidence is the share of passed checks and the decision is
`confidence >= 0.8 and not any('below minimum' in flag for flag in flags)`. -/
def tiktokVerify (minFollowers : ℕ) (fetched : Option ℕ) (conn : ConnRow) :
    VerifOutcome × ConnRow :=
  match tiktokChecks minFollowers fetched conn with
  | (checksPassed, totalChecks, flags, conn1) =>
    let confidence : ℚ := if 0 < totalChecks then (checksPassed : ℚ) / totalChecks else 0
    let passed := decide ((4 : ℚ) / 5 ≤ confidence) && !decide (VFlag.belowMinimum ∈ flags)
    (⟨passed, confidence, flags⟩, conn1)

/-- Check 1 of `YouTubeVerifier.verify` (src/influencers/verification.py
lines 277-302), the subscriber cross-check: returns (checks passed, flags,
`actual_follower_count`, updated connection row).  `actual_follower_count`
is the API count when available, else the user-provided count. -/
def ytCheck1 (fetched : Option ℕ) (conn : ConnRow) : ℕ × List VFlag × ℕ × ConnRow :=
  let fr := youtubeFollowerVerify fetched conn.declared
  match fr.actualCount with
  | some a =>
    if fr.verified then (1, [], a, { conn with verifiedCount := some a })
    else (0, [VFlag.countCorrected], a, { conn with verifiedCount := some a })
  | none => (0, [VFlag.unableToVerify], conn.declared, conn)

/-- `YouTubeVerifier.verify` (src/influencers/verification.py lines 271-380):
check battery plus the special decision branches (API-unavailable pass with
confidence 0.7, API-verified pass with confidence 0.9, below-minimum hard
fail). -/
def youtubeVerify (minFollowers : ℕ) (fetched : Option ℕ) (conn : ConnRow) :
    VerifOutcome × ConnRow :=
  match ytCheck1 fetched conn with
  | (c1, flags1, actualCount, conn1) =>
    -- check 2: minimum; `count_to_check = actual_follower_count or followers_count`
    let countToCheck := if actualCount = 0 then conn1.declared else actualCount
    let (c2, flags2) :=
      if minFollowers ≤ countToCheck then (1, ([] : List VFlag)) else (0, [VFlag.belowMinimumYt])
    -- check 3: handle format
    let (c3, flags3) :=
      if handleOkYt conn.handle then (1, ([] : List VFlag)) else (0, [VFlag.invalidHandle])
    -- check 4: sample post URL (only when provided)
    let (t4, c4, flags4) :=
      match conn.sampleUrl with
      | some url =>
        if strSub url.toLower "youtube.com" || strSub url.toLower "youtu.be" then
          (1, 1, ([] : List VFlag))
        else (1, 0, [VFlag.badSampleUrl])
      | none => (0, 0, ([] : List VFlag))
    let totalChecks := 3 + t4
    let checksPassed := c1 + c2 + c3 + c4
    let flags := flags1 ++ flags2 ++ flags3 ++ flags4
    let apiUnavailable := decide (VFlag.unableToVerify ∈ flags)
    let belowMinimum := decide (VFlag.belowMinimumYt ∈ flags)
    let shareConf : ℚ := if 0 < totalChecks then (checksPassed : ℚ) / totalChecks else 0
    let decision : Bool × ℚ :=
      if belowMinimum then (false, shareConf)
      else if apiUnavailable then
        -- approve with medium confidence when basic checks pass
        if decide (minFollowers ≤ countToCheck) && handleOkYt conn.handle then (true, 7 / 10)
        else (decide ((4 : ℚ) / 5 ≤ shareConf), shareConf)
      else
        if minFollowers ≤ actualCount then
          if handleOkYt conn.handle then (true, 9 / 10)
          else (decide ((4 : ℚ) / 5 ≤ shareConf), shareConf)
        else
          (decide ((4 : ℚ) / 5 ≤ shareConf) && !belowMinimum, shareConf)
    (⟨decision.1, decision.2, flags⟩, conn1)

/-- The follower count the decision is about: the API-fetched count when the
fetch succeeded, the user-declared count otherwise. -/
def relevantCount (fetched : Option ℕ) (declared : ℕ) : ℕ :=
  fetched.getD declared

/-- A row of `BrandVerificationQueue` (src/brands/models.py): the brand key
(one-to-one in the schema), the scheduled time and the processed flag. -/
structure QueueEntry where
  brand : ℕ
  scheduledAt : ℕ
  processed : Bool
deriving Repr, DecidableEq

/-- Embedding of `BrandVerificationQueue.schedule_verification`
(src/brands/models.py lines 231-248): `get_or_create(brand=brand,
defaults={'scheduled_at': t})`, and when the row already existed, update
`scheduled_at := t` and reset `processed := False` on that same row.
`t` stands for `now + random(5..10) minutes`. -/
def scheduleVerification (q : List QueueEntry) (b : ℕ) (t : ℕ) : List QueueEntry :=
  if q.any (fun e => e.brand == b) then
    q.map (fun e => if e.brand = b then { e with scheduledAt := t, processed := false } else e)
  else
    q ++ [⟨b, t, false⟩]

/-- Any sequence of `schedule_verification` calls, each given as
(brand, scheduled time). -/
def scheduleMany (q : List QueueEntry) (calls : List (ℕ × ℕ)) : List QueueEntry :=
  calls.foldl (fun s c => scheduleVerification s c.1 c.2) q

/-- Number of queue rows belonging to a brand. -/
def brandRows (q : List QueueEntry) (b : ℕ) : ℕ :=
  q.countP (fun e => e.brand == b)

/-- A row of the `Currency` table for the default-flag logic: primary key
and default flag. -/
structure CurrencyRow where
  id : ℕ
  isDefault : Bool
deriving Repr, DecidableEq

/-- Embedding of `Currency.save` (src/brands/models.py lines 39-43): when
the saved row is flagged default, first clear `is_default` on every
currently-default row (`filter(is_default=True).update(is_default=False)`),
then `super().save()` upserts the row by primary key. -/
def currencySave (rows : List CurrencyRow) (c : CurrencyRow) : List CurrencyRow :=
  let rows1 :=
    if c.isDefault then rows.map (fun r => if r.isDefault then { r with isDefault := false } else r)
    else rows
  if rows1.any (fun r => r.id == c.id) then rows1.map (fun r => if r.id = c.id then c else r)
  else rows1 ++ [c]

/-- A row of the `PaymentMethod` table for the default-flag logic: primary
key, owning influencer, default flag. -/
structure PMRow where
  id : ℕ
  influencer : ℕ
  isDefault : Bool
deriving Repr, DecidableEq

/-- Embedding of `PaymentMethod.save` (src/influencers/models.py lines
611-618): when the saved method is flagged default, clear `is_default` on
the influencer's other default methods
(`filter(influencer=..., is_default=True).exclude(pk=self.pk)`), then
upsert the row. -/
def paymentMethodSave (rows : List PMRow) (m : PMRow) : List PMRow :=
  let rows1 :=
    if m.isDefault then
      rows.map (fun r =>
        if r.influencer = m.influencer ∧ r.isDefault ∧ r.id ≠ m.id then
          { r with isDefault := false }
        else r)
    else rows
  if rows1.any (fun r => r.id == m.id) then rows1.map (fun r => if r.id = m.id then m else r)
  else rows1 ++ [m]

/-- Number of currencies flagged default. -/
def defaultCount (rows : List CurrencyRow) : ℕ := rows.countP (fun r => r.isDefault)

/-- Number of an influencer's payment methods flagged default. -/
def pmDefaultCount (rows : List PMRow) (i : ℕ) : ℕ :=
  rows.countP (fun r => r.influencer == i && r.isDefault)

/-- Campaign statuses (`Campaign.Status`, src/campaigns/models.py). -/
inductive CampaignStatus where
  | draft
  | active
  | paused
  | completed
  | cancelled
deriving Repr, DecidableEq

/-- The campaign fields the wallet flows read: id, decimal budget, status. -/
structure CampaignRec where
  id : ℕ
  budget : ℚ
  status : CampaignStatus
deriving Repr, DecidableEq

/-- A `PaymentTransaction` row as the wallet flows see it: amount, the
campaign id stored in `metadata['campaign_id']`, and whether
`payment_type` is `CAMPAIGN_PAYMENT`. -/
structure TxnRec where
  amount : ℚ
  campaignId : ℕ
  isCampaignPayment : Bool
deriving Repr, DecidableEq

/-- The per-brand database state the campaign money flows touch. -/
structure WalletState where
  walletBalance : ℚ
  campaigns : List CampaignRec
  txns : List TxnRec
deriving Repr, DecidableEq

/-- The three writes of the `create_campaign` body. -/
inductive CCStep where
  | saveCampaign
  | debitWallet
  | saveTxn
deriving Repr, DecidableEq

/-- Effect of one write of `create_campaign`; `cid` is the new campaign's
id. -/
def ccApply (budget : ℚ) (cid : ℕ) (s : WalletState) : CCStep → WalletState
  | .saveCampaign => { s with campaigns := s.campaigns ++ [⟨cid, budget, .draft⟩] }
  | .debitWallet => { s with walletBalance := s.walletBalance - budget }
  | .saveTxn => { s with txns := s.txns ++ [⟨budget, cid, true⟩] }

/-- Run a list of writes inside `transaction.atomic()`.  `failAt` marks the
step at which a simulated exception is raised; the semantics of the atomic
block (Django's documented behaviour) is that an exception inside the
block rolls back every write of the block, which the caller of `runAtomic`
realises by discarding the `none` result. -/
def runAtomic (budget : ℚ) (cid : ℕ) (failAt : Option CCStep) :
    List CCStep → WalletState → Option WalletState
  | [], s => some s
  | a :: rest, s =>
    if failAt = some a then none
    else runAtomic budget cid failAt rest (ccApply budget cid s a)

/-- The write order of `create_campaign` (src/campaigns/views.py lines
53-79): campaign save, then wallet debit, then payment-transaction save,
all inside a single `transaction.atomic()` block. -/
def createCampaignBody : List CCStep := [.saveCampaign, .debitWallet, .saveTxn]

/-- `create_campaign` (src/campaigns/views.py lines 36-91): re-check the
wallet balance, then run the three writes in one atomic block; the view
catches exceptions, in which case the transaction has rolled back and no
write is visible.  Returns the final state and whether creation
succeeded. -/
def createCampaign (budget : ℚ) (cid : ℕ) (failAt : Option CCStep) (s : WalletState) :
    WalletState × Bool :=
  if s.walletBalance < budget then (s, false)
  else
    match runAtomic budget cid failAt createCampaignBody s with
    | some s1 => (s1, true)
    | none => (s, false)

/-- `activate_campaign` (src/campaigns/views.py lines 153-230) for a
campaign of the brand: only draft campaigns activate; when a
campaign-payment transaction keyed by the campaign id already exists, only
the status changes; otherwise the fallback path debits the wallet, saves
the status and creates the transaction record. -/
def activateCampaign (s : WalletState) (cid : ℕ) : WalletState :=
  match s.campaigns.find? (fun c => c.id == cid) with
  | none => s
  | some camp =>
    if camp.status ≠ CampaignStatus.draft then s
    else if s.txns.any (fun t => t.isCampaignPayment && t.campaignId == cid) then
      { s with campaigns :=
          s.campaigns.map (fun c =>
            if c.id = cid then { c with status := CampaignStatus.active } else c) }
    else if s.walletBalance < camp.budget then s
    else
      { walletBalance := s.walletBalance - camp.budget,
        campaigns := s.campaigns.map (fun c =>
          if c.id = cid then { c with status := CampaignStatus.active } else c),
        txns := s.txns ++ [⟨camp.budget, cid, true⟩] }

/-- Submission statuses (`Submission.Status`, src/operations/models.py). -/
inductive SubStatus where
  | new
  | inReview
  | verified
  | flagged
  | needsReupload
deriving Repr, DecidableEq

/-- Payout statuses (`Payout.Status`, src/operations/models.py). -/
inductive PayoutStatus where
  | pending
  | sent
  | failed
deriving Repr, DecidableEq

/-- A `Submission` row as acceptance creates it. -/
structure SubmissionRec where
  influencer : ℕ
  campaign : ℕ
  status : SubStatus
deriving Repr, DecidableEq

/-- A `Payout` row as acceptance creates it. -/
structure PayoutRec where
  influencer : ℕ
  campaign : ℕ
  amount : ℚ
  dueDate : ℕ
  status : PayoutStatus
deriving Repr, DecidableEq

/-- The influencer fields the acceptance flow reads: id and settlement
currency. -/
structure InfProfile where
  id : ℕ
  currency : Option Curr
deriving Repr, DecidableEq

/-- The campaign fields the acceptance flow reads: id, budget, package
size, the brand's currency and the optional due date. -/
structure CampaignOffer where
  id : ℕ
  budget : ℚ
  packageVideos : ℕ
  brandCurrency : Option Curr
  dueDate : Option ℕ
deriving Repr, DecidableEq

/-- `verified_followers_count if verified_followers_count else
followers_count` (Python truthiness: both `None` and 0 fall back to the
declared count). -/
def connCount (conn : ConnRow) : ℕ :=
  match conn.verifiedCount with
  | some v => if v = 0 then conn.declared else v
  | none => conn.declared

/-- Python's `x or Currency.get_default()` on an optional currency. -/
def orDefault (table : List Curr) : Option Curr → Option Curr
  | some c => some c
  | none => getDefault table

/-- Pass an optional currency object to `convert_currency`. -/
def refOfOpt : Option Curr → CurrRef
  | some c => CurrRef.byObj c
  | none => CurrRef.absent

/-- The acceptance branch of `campaign_detail`
(src/influencers/views.py lines 289-376): `can_accept` requires a verified
connection on the campaign's platform, no prior submission and the
follower-count minimum; on acceptance one Submission (status new) and one
pending Payout are created in one transaction, the payout amount being
`budget / package_videos` (the whole budget when the package is empty)
converted from the campaign's currency to the influencer's. -/
def acceptCampaign (table : List Curr) (inf : InfProfile) (camp : CampaignOffer)
    (verifiedConn : Option ConnRow) (minFollowers today : ℕ)
    (subs : List SubmissionRec) (payouts : List PayoutRec) :
    List SubmissionRec × List PayoutRec :=
  let alreadyAccepted := subs.any (fun s => s.influencer == inf.id && s.campaign == camp.id)
  let canAccept :=
    match verifiedConn with
    | some conn => !alreadyAccepted && decide (minFollowers ≤ connCount conn)
    | none => false
  if canAccept then
    let payoutCC := if 0 < camp.packageVideos then camp.budget / camp.packageVideos
      else camp.budget
    let influencerCurrency := orDefault table inf.currency
    let campaignCurrency := orDefault table camp.brandCurrency
    let payoutAmount :=
      convertCurrency table payoutCC (refOfOpt campaignCurrency) (refOfOpt influencerCurrency)
    (subs ++ [⟨inf.id, camp.id, SubStatus.new⟩],
     payouts ++ [⟨inf.id, camp.id, payoutAmount, camp.dueDate.getD (today + 30),
       PayoutStatus.pending⟩])
  else (subs, payouts)

/-- Python `str.lower` (ASCII view, as in the source's data). -/
def strLower (s : String) : String := String.mk (s.toList.map Char.toLower)

/-- Drop leading and trailing whitespace from a character list. -/
def charsTrim (l : List Char) : List Char :=
  ((l.dropWhile Char.isWhitespace).reverse.dropWhile Char.isWhitespace).reverse

/-- Python `str.strip`. -/
def strTrim (s : String) : String := String.mk (charsTrim s.toList)

/-- Python `str.startswith` / an anchored `re.search('^pat')`. -/
def strStarts (s pre : String) : Bool := chLead pre.toList s.toList

/-- Python `str.endswith`. -/
def strEnds (s suf : String) : Bool := chLead suf.toList.reverse s.toList.reverse

/-- Python `str.split(sep)` for a one-character separator. -/
def chSplitOn (sep : Char) : List Char → List (List Char)
  | [] => [[]]
  | c :: rest =>
    let r := chSplitOn sep rest
    if c = sep then [] :: r
    else
      match r with
      | h :: t => (c :: h) :: t
      | [] => [[c]]

/-- Split a character list at the first occurrence of `sep`; `none` when
`sep` does not occur. -/
def splitOnFirst (sep : List Char) : List Char → Option (List Char × List Char)
  | [] => if sep = [] then some ([], []) else none
  | c :: rest =>
    if chLead sep (c :: rest) then some ([], (c :: rest).drop sep.length)
    else
      match splitOnFirst sep rest with
      | some (pre, post) => some (c :: pre, post)
      | none => none

/-- Scan for a run of at least ten digits (`\d` followed by `{10,}` in the
source's suspicious-pattern regex); `k` is the length of the current run. -/
def hasDigitRun : List Char → ℕ → Bool
  | [], k => decide (10 ≤ k)
  | c :: rest, k =>
    if c.isDigit then hasDigitRun rest (k + 1)
    else decide (10 ≤ k) || hasDigitRun rest 0

/-- `re.search(r'\d{10,}', s)`. -/
def tenDigits (s : String) : Bool := hasDigitRun s.toList 0

/-- `BrandVerifier.verify_company_name` (src/brands/verification.py lines
63-95): required, length at least 2 after strip; suspicious prefixes
test/demo/example (case-insensitive) or a ten-digit run halve the score;
a clean name of length 3..100 scores 1.0, else 0.8. -/
def verifyCompanyName (name : String) : Bool × ℚ × List String :=
  if name = "" then (false, 0, ["Company name is required"])
  else
    let n := strTrim name
    if n.length < 2 then (false, 2 / 10, ["Company name too short"])
    else
      let l := strLower n
      let flags :=
        (if strStarts l "test" then ["Suspicious company name pattern"] else []) ++
        (if strStarts l "demo" then ["Suspicious company name pattern"] else []) ++
        (if strStarts l "example" then ["Suspicious company name pattern"] else []) ++
        (if tenDigits n then ["Suspicious company name pattern"] else [])
      if flags ≠ [] then (true, 5 / 10, flags)
      else if 3 ≤ n.length ∧ n.length ≤ 100 then (true, 1, [])
      else (true, 8 / 10, ["Company name length unusual"])

/-- The body of `BrandVerifier.verify_industry` (src/brands/verification.py
lines 97-121), which is written for a string argument (it strips and
lowercases it): required, length at least 2; scores 1.0 when a common
industry name occurs in it (case-insensitive substring), else 0.7.  The
sole call site passes `brand.industry`, a ForeignKey — see
`verifyIndustryFk` for what actually happens there. -/
def verifyIndustry (industry : String) : Bool × ℚ × List String :=
  if industry = "" then (false, 0, ["Industry is required"])
  else
    let ind := strTrim industry
    if ind.length < 2 then (false, 3 / 10, ["Industry too short"])
    else
      let commonIndustries := ["fashion", "tech", "food", "beauty", "fitness", "travel",
        "finance", "health", "education", "entertainment", "sports",
        "automotive", "real estate", "retail", "e-commerce"]
      if commonIndustries.any (fun c => strSub (strLower ind) c) then (true, 1, [])
      else (true, 7 / 10, ["Uncommon industry - may need review"])

/-- `BrandVerifier.verify_description` (src/brands/verification.py lines
123-150): required, length at least 20 after strip; suspicious keywords
only flag, the score is 1.0 from 50 characters, 0.8 from 30, else 0.6. -/
def verifyDescription (description : String) : Bool × ℚ × List String :=
  if description = "" then (false, 0, ["Description is required"])
  else
    let d := strTrim description
    if d.length < 20 then (false, 3 / 10, ["Description too short (minimum 20 characters)"])
    else
      (true,
       if 50 ≤ d.length then 1 else if 30 ≤ d.length then 8 / 10 else 6 / 10,
       (["test", "demo", "example", "lorem ipsum"].filter
          (fun kw => strSub (strLower d) kw)).map
         (fun kw => "Suspicious keyword found: " ++ kw))

/-- `'@' in email and '.' in email.split('@')[1]`. -/
def emailFormatOk (email : String) : Bool :=
  email.toList.contains '@' && ((chSplitOn '@' email.toList).getD 1 []).contains '.'

/-- Strip whitespace, dashes and parentheses, then `^\+?\d{7,15}$`. -/
def phoneFormatOk (phone : String) : Bool :=
  let cleaned := phone.toList.filter
    (fun c => !(c.isWhitespace || c == '-' || c == '(' || c == ')'))
  let digits :=
    match cleaned with
    | '+' :: rest => rest
    | other => other
  digits.all Char.isDigit && decide (7 ≤ digits.length) && decide (digits.length ≤ 15)

/-- `BrandVerifier.verify_contact_info` (src/brands/verification.py lines
152-178): 0.5 for a well-formed email, 0.5 for a well-formed phone; valid
iff the score is positive. -/
def verifyContactInfo (contactEmail phoneNumber : String) : Bool × ℚ × List String :=
  let emailPart : ℚ × List String :=
    if contactEmail ≠ "" then
      if emailFormatOk contactEmail then (5 / 10, [])
      else (0, ["Invalid contact email format"])
    else (0, ["No contact email provided"])
  let phonePart : ℚ × List String :=
    if phoneNumber ≠ "" then
      if phoneFormatOk phoneNumber then (5 / 10, [])
      else (0, ["Invalid phone number format"])
    else (0, ["No phone number provided"])
  let score := emailPart.1 + phonePart.1
  (decide (0 < score), score, emailPart.2 ++ phonePart.2)

/-- `urllib.parse.urlparse` restricted to what `verify_website` reads: for
an absolute URL the scheme is the part before `://` and the netloc the
part between `://` and the next slash; other URLs parse with empty scheme
and netloc and fail the format check, as in the source. -/
def urlSchemeNetloc (url : String) : String × String :=
  match splitOnFirst "://".toList url.toList with
  | some (pre, post) => (String.mk pre, String.mk ((chSplitOn '/' post).getD 0 []))
  | none => ("", "")

/-- One label of the source's domain regex
`[a-zA-Z0-9]([a-zA-Z0-9-]{0,61}[a-zA-Z0-9])?`: starts and ends
alphanumeric, dashes inside, at most 63 characters. -/
def labelOk : List Char → Bool
  | [] => false
  | [c] => c.isAlphanum
  | c :: rest =>
    c.isAlphanum && decide (rest.length ≤ 62) &&
      (rest.dropLast.all fun x => x.isAlphanum || x == '-') &&
      (rest.getLast?.elim true fun x => x.isAlphanum)

/-- The source's full-domain regex: dot-separated valid labels. -/
def domainOk (host : String) : Bool := (chSplitOn '.' host.toList).all labelOk

/-- The TLD allowlist of `verify_website`. -/
def validTlds : List String := [".com", ".net", ".org", ".io", ".co", ".app", ".dev", ".tech", ".ai"]

/-- `BrandVerifier.verify_website` (src/brands/verification.py lines
31-61): format check, domain check, then 0.8 for a common TLD and 0.6
otherwise. -/
def verifyWebsite (website : String) : Bool × ℚ × List String :=
  if website = "" then (false, 0, ["No website provided"])
  else
    match urlSchemeNetloc website with
    | (scheme, netloc) =>
      if scheme = "" ∨ netloc = "" then (false, 3 / 10, ["Invalid website URL format"])
      else if domainOk netloc = false then (false, 3 / 10, ["Invalid domain format"])
      else if validTlds.any (fun tld => strEnds netloc tld) then (true, 8 / 10, [])
      else (true, 6 / 10, ["Uncommon TLD - may need manual review"])

/-- `VerificationResult` of the brand verifier
(src/brands/verification.py). -/
structure BrandVerdict where
  passed : Bool
  confidence : ℚ
  flags : List String
deriving Repr

/-- The scoring pipeline of `BrandVerifier.verify_brand`
(src/brands/verification.py lines 180-258) with the industry given as the
string its check body expects: run the five checks; the website check only
contributes (to score and to the denominator) when a website is present;
confidence is the score sum over the category count; pass iff the four
required checks are valid and confidence is at least 0.7.  The deployed
call site does not supply a string — see `verifyBrandFk`. -/
def verifyBrand (companyName industry description contactEmail phoneNumber : String)
    (website : Option String) : BrandVerdict :=
  let name := verifyCompanyName companyName
  let ind := verifyIndustry industry
  let desc := verifyDescription description
  let contact := verifyContactInfo contactEmail phoneNumber
  let websitePresent :=
    match website with
    | some w => !(w == "")
    | none => false
  let websitePart : ℚ × ℚ × List String :=
    if websitePresent then
      ((verifyWebsite (website.getD "")).2.1, 1, (verifyWebsite (website.getD "")).2.2)
    else (0, 0, [])
  let totalScore := name.2.1 + ind.2.1 + desc.2.1 + websitePart.1 + contact.2.1
  let maxScore : ℚ := 1 + 1 + 1 + websitePart.2.1 + 1
  let confidence := if 0 < maxScore then totalScore / maxScore else 0
  let requiredPassed := name.1 && ind.1 && desc.1 && contact.1
  let passed := requiredPassed && decide ((7 : ℚ) / 10 ≤ confidence)
  ⟨passed, confidence, name.2.2 ++ ind.2.2 ++ desc.2.2 ++ websitePart.2.2 ++ contact.2.2⟩

/-- A value of `Brand.industry`: a nullable ForeignKey to the `Industry`
model (src/brands/models.py line 90), carrying the Industry row's name.
This — not a string — is what `verify_brand` passes into
`verify_industry` at src/brands/verification.py line 201. -/
structure IndustryRef where
  name : String
deriving Repr, DecidableEq

/-- `verify_industry` as actually called with `brand.industry`: `None` is
falsy, so `if not industry` returns the required-field failure; but an
`Industry` instance is truthy, and `industry.strip()` then raises
`AttributeError` because a model instance has no `strip` method.  The
raise is embedded as `Except.error`; note the industry name is never
consulted. -/
def verifyIndustryFk : Option IndustryRef → Except String (Bool × ℚ × List String)
  | none => .ok (false, 0, ["Industry is required"])
  | some _ => .error "AttributeError: Industry object has no attribute strip"

/-- `BrandVerifier.verify_brand` as called on a real `Brand` row, where the
industry argument is the ForeignKey value: the company-name check runs,
then the industry check raises for every brand whose industry is set, and
the exception propagates out of `verify_brand` — its only caller, the
`process_brand_verifications` command, catches it, logs an error and
leaves the brand unverified.  When the industry is unset the pipeline
completes but the required industry check has failed. -/
def verifyBrandFk (companyName : String) (industry : Option IndustryRef)
    (description contactEmail phoneNumber : String)
    (website : Option String) : Except String BrandVerdict :=
  let name := verifyCompanyName companyName
  match verifyIndustryFk industry with
  | .error e => .error e
  | .ok ind =>
    let desc := verifyDescription description
    let contact := verifyContactInfo contactEmail phoneNumber
    let websitePresent :=
      match website with
      | some w => !(w == "")
      | none => false
    let websitePart : ℚ × ℚ × List String :=
      if websitePresent then
        ((verifyWebsite (website.getD "")).2.1, 1, (verifyWebsite (website.getD "")).2.2)
      else (0, 0, [])
    let totalScore := name.2.1 + ind.2.1 + desc.2.1 + websitePart.1 + contact.2.1
    let maxScore : ℚ := 1 + 1 + 1 + websitePart.2.1 + 1
    let confidence := if 0 < maxScore then totalScore / maxScore else 0
    let requiredPassed := name.1 && ind.1 && desc.1 && contact.1
    let passed := requiredPassed && decide ((7 : ℚ) / 10 ≤ confidence)
    .ok ⟨passed, confidence, name.2.2 ++ ind.2.2 ++ desc.2.2 ++ websitePart.2.2 ++ contact.2.2⟩

/-- C2 (counterexample): the claim's uniform tolerance `max(100, 5%)` is
wrong for YouTube.  With 1000 declared and 1075 fetched subscribers the
discrepancy 75 is within `max(100, 5% * 1000) = 100`, yet
`YouTubeFollowerVerifier.verify` reports `verified = false` because its
floor is 50, so its tolerance is `max(50, 50) = 50 < 75`. -/
theorem youtubeTolerance_counterexample :
    (youtubeFollowerVerify (some 1075) 1000).verified = false ∧
    ((((1075 : ℤ) - (1000 : ℤ)).natAbs : ℚ) ≤ max 100 ((1000 : ℚ) * (5 / 100))) := by
  constructor
  · simp only [youtubeFollowerVerify, followerVerifyFloor]
    norm_num
  · norm_num

/-- C2 (amended): for TikTok, Instagram and Facebook the cross-check reports
`verified = true` iff the absolute discrepancy between fetched and declared
counts is at most `max(100, 5% of declared)`; for YouTube the fixed floor
is 50 instead of 100. -/
theorem followerTolerance_spec (fetched declared : ℕ) :
    ((tiktokFollowerVerify (some fetched) declared).verified = true ↔
      ((((fetched : ℤ) - (declared : ℤ)).natAbs : ℚ) ≤
        max 100 ((declared : ℚ) * (5 / 100)))) ∧
    ((instagramFollowerVerify (some fetched) declared).verified = true ↔
      ((((fetched : ℤ) - (declared : ℤ)).natAbs : ℚ) ≤
        max 100 ((declared : ℚ) * (5 / 100)))) ∧
    ((facebookFollowerVerify (some fetched) declared).verified = true ↔
      ((((fetched : ℤ) - (declared : ℤ)).natAbs : ℚ) ≤
        max 100 ((declared : ℚ) * (5 / 100)))) ∧
    ((youtubeFollowerVerify (some fetched) declared).verified = true ↔
      ((((fetched : ℤ) - (declared : ℤ)).natAbs : ℚ) ≤
        max 50 ((declared : ℚ) * (5 / 100)))) := by
  refine ⟨?_, ?_, ?_, ?_⟩ <;>
    simp [tiktokFollowerVerify, instagramFollowerVerify, facebookFollowerVerify,
      youtubeFollowerVerify, followerVerifyFloor]

/-- C3 (counterexample): the pass decision is not
`confidence >= 0.8 and no hard-fail flag` on every platform.  For a YouTube
connection with the API unavailable, 5000 declared subscribers (minimum
1000) and a valid handle, `YouTubeVerifier.verify` passes with confidence
0.7 < 0.8. -/
theorem verifierDecision_counterexample :
    ((youtubeVerify 1000 none ⟨5000, none, "mychannel", none, 0⟩).1.passed = true) ∧
    ((youtubeVerify 1000 none ⟨5000, none, "mychannel", none, 0⟩).1.confidence < 4 / 5) := by
  have hh : "mychannel".isEmpty = false := rfl
  constructor
  · simp [youtubeVerify, ytCheck1, youtubeFollowerVerify, followerVerifyFloor, handleOkYt, hh]
  · simp [youtubeVerify, ytCheck1, youtubeFollowerVerify, followerVerifyFloor, handleOkYt, hh]
    norm_num

/-- C3 (amended): for TikTok connections the decision is exactly
`passed = true` iff the aggregate confidence (checks passed over checks
run) is at least 0.8 and no check produced the below-minimum hard-fail
flag.  (YouTube deviates: see the counterexample.) -/
theorem verifierDecision_tiktok (minFollowers : ℕ) (fetched : Option ℕ) (conn : ConnRow) :
    (tiktokVerify minFollowers fetched conn).1.passed = true ↔
      ((4 : ℚ) / 5 ≤ (tiktokVerify minFollowers fetched conn).1.confidence ∧
        VFlag.belowMinimum ∉ (tiktokVerify minFollowers fetched conn).1.flags) := by
  rcases h : tiktokChecks minFollowers fetched conn with ⟨cp, tc, flags, conn1⟩
  simp [tiktokVerify, h]

/-- The `actual_follower_count` produced by check 1 is the fetched count
when the API answered, the declared count otherwise. -/
theorem ytCheck1_actual (f : Option ℕ) (c : ConnRow) :
    (ytCheck1 f c).2.2.1 = relevantCount f c.declared := by
  rcases f with _ | a
  · rfl
  · simp only [ytCheck1, youtubeFollowerVerify, followerVerifyFloor, relevantCount, Option.getD]
    split_ifs <;> rfl

/-- Check 1 never changes the declared follower count of the row. -/
theorem ytCheck1_decl (f : Option ℕ) (c : ConnRow) :
    ((ytCheck1 f c).2.2.2).declared = c.declared := by
  rcases f with _ | a
  · rfl
  · simp only [ytCheck1, youtubeFollowerVerify, followerVerifyFloor]
    split_ifs <;> rfl

/-- A fetched count of 0 can never be within tolerance of a declared count
above 50. -/
theorem ytVerified_zero (d : ℕ) (h50 : 50 < d) :
    (youtubeFollowerVerify (some 0) d).verified = false := by
  simp only [youtubeFollowerVerify, followerVerifyFloor]
  simp only [decide_eq_false_iff_not, not_le, Nat.cast_zero, zero_sub, Int.natAbs_neg,
    Int.natAbs_ofNat, Nat.cast_ofNat]
  have hq : (50 : ℚ) < (d : ℚ) := by exact_mod_cast h50
  exact max_lt (by linarith) (by linarith)

/-- C4: a YouTube connection whose relevant follower count (the API-fetched
count when the fetch succeeded, the declared count otherwise) is below the
platform minimum never passes, whether or not the API was available.  The
hypothesis `50 < minFollowers` is satisfied by the deployed minimum
(default 1000 in `PlatformSettings.minimum_followers`, confirmed by
migration 0013). -/
theorem youtube_belowMinimum_fails (minFollowers : ℕ) (fetched : Option ℕ) (conn : ConnRow)
    (hmin : 50 < minFollowers)
    (hlow : relevantCount fetched conn.declared < minFollowers) :
    (youtubeVerify minFollowers fetched conn).1.passed = false := by
  rcases hs : ytCheck1 fetched conn with ⟨c1, flags1, actual, conn1⟩
  have hactual : actual = relevantCount fetched conn.declared := by
    have h := ytCheck1_actual fetched conn
    rw [hs] at h
    exact h
  have hdecl : conn1.declared = conn.declared := by
    have h := ytCheck1_decl fetched conn
    rw [hs] at h
    exact h
  simp only [youtubeVerify, hs]
  by_cases hc2 : minFollowers ≤ (if actual = 0 then conn1.declared else actual)
  · -- check 2 passes, so the fetched count must have been 0 (discarded by
    -- Python truthiness) with a declared count above the minimum; the
    -- cross-check then fails and the share of passed checks stays below 0.8
    have ha0 : actual = 0 := by
      by_contra h
      rw [if_neg h] at hc2
      omega
    subst ha0
    rw [if_pos rfl] at hc2
    rcases fetched with _ | a
    · exfalso
      simp [relevantCount] at hactual
      omega
    · have haa : a = 0 := by
        simp [relevantCount] at hactual
        omega
      subst haa
      have h50d : 50 < conn.declared := by omega
      have hs2 : ytCheck1 (some 0) conn =
          (0, [VFlag.countCorrected], 0, { conn with verifiedCount := some 0 }) := by
        simp only [ytCheck1, ytVerified_zero conn.declared h50d]
        rfl
      rw [hs] at hs2
      obtain ⟨h1, h2, -, h4⟩ : c1 = 0 ∧ flags1 = [VFlag.countCorrected] ∧ (0 : ℕ) = 0 ∧
          conn1 = { conn with verifiedCount := some 0 } := by
        simpa [Prod.ext_iff] using hs2
      subst h1
      subst h2
      rw [if_pos rfl, if_pos hc2]
      rw [if_neg (by omega : ¬ minFollowers ≤ 0)]
      rcases hsu : conn.sampleUrl with _ | url
      · cases hh : handleOkYt conn.handle <;> simp [hh] <;> norm_num
      · cases hh : handleOkYt conn.handle <;>
          cases hu : (strSub url.toLower "youtube.com" || strSub url.toLower "youtu.be") <;>
          simp [hh, hu] <;> norm_num
  · -- check 2 failed: the below-minimum flag forces rejection
    simp [hc2]

/-- Witness for C4 at the spec's own scenario: declared 500, minimum 1000,
both with the API unavailable and with the API returning 500. -/
theorem youtube_belowMinimum_fails_witness :
    (50 < 1000 ∧ relevantCount (some 500) 500 < 1000 ∧
      (youtubeVerify 1000 (some 500) ⟨500, none, "chan", none, 0⟩).1.passed = false) ∧
    (relevantCount none 500 < 1000 ∧
      (youtubeVerify 1000 none ⟨500, none, "chan", none, 0⟩).1.passed = false) := by
  refine ⟨⟨by norm_num, by norm_num [relevantCount], ?_⟩, ⟨by norm_num [relevantCount], ?_⟩⟩
  · exact youtube_belowMinimum_fails 1000 (some 500) ⟨500, none, "chan", none, 0⟩
      (by norm_num) (by norm_num [relevantCount])
  · exact youtube_belowMinimum_fails 1000 none ⟨500, none, "chan", none, 0⟩
      (by norm_num) (by norm_num [relevantCount])

/-- C5: scheduling brand verification is idempotent on rows.  When a row for
the brand already exists (processed or not), the call creates no second
row: the table keeps its length and the brand's row ends up with the new
`scheduled_at` and `processed = false`.  Moreover a single call, and any
sequence of calls, preserves "at most one queue row per brand". -/
theorem brandRows_le_one (q : List QueueEntry) (b t : ℕ) :
    ((q.any fun e => e.brand == b) = true →
      (scheduleVerification q b t).length = q.length ∧
      ∀ e ∈ scheduleVerification q b t, e.brand = b →
        e.scheduledAt = t ∧ e.processed = false) ∧
    (∀ b', brandRows q b' ≤ 1 → brandRows (scheduleVerification q b t) b' ≤ 1) ∧
    (∀ calls : List (ℕ × ℕ), (∀ b', brandRows q b' ≤ 1) →
      ∀ b', brandRows (scheduleMany q calls) b' ≤ 1) := by
  have hstep : ∀ (q : List QueueEntry) (b t : ℕ) (b' : ℕ),
      brandRows q b' ≤ 1 → brandRows (scheduleVerification q b t) b' ≤ 1 := by
    intro q b t b' h
    unfold scheduleVerification
    by_cases hex : (q.any fun e => e.brand == b) = true
    · rw [if_pos hex]
      unfold brandRows at *
      rw [List.countP_map]
      refine le_trans (le_of_eq (List.countP_congr ?_)) h
      intro e _
      by_cases hb : e.brand = b <;> simp [hb, Function.comp]
    · rw [if_neg hex]
      unfold brandRows at *
      rw [List.countP_append]
      by_cases hb : b = b'
      · subst hb
        have hzero : q.countP (fun e => e.brand == b) = 0 := by
          rw [List.countP_eq_zero]
          intro e he
          have hex' : (q.any fun e => e.brand == b) = false := by simpa using hex
          have := List.any_eq_false.mp hex' e he
          simpa using this
        simp [hzero]
      · simp [hb]
        omega
  refine ⟨?_, fun b' => hstep q b t b', ?_⟩
  · intro hex
    constructor
    · simp [scheduleVerification, hex]
    · intro e he hb
      rw [scheduleVerification, if_pos hex] at he
      rcases List.mem_map.mp he with ⟨e', _, rfl⟩
      by_cases hb' : e'.brand = b
      · simp [hb']
      · simp [hb'] at hb
  · intro calls
    induction calls generalizing q with
    | nil => intro h b'; exact h b'
    | cons c cs ih =>
      intro h b'
      exact ih (scheduleVerification q c.1 c.2) (fun b'' => hstep q c.1 c.2 b'' (h b'')) b'

/-- Witness for C5: rescheduling brand 1 while its row is still queued keeps
a single row. -/
theorem brandRows_le_one_witness :
    (scheduleVerification [⟨1, 5, false⟩] 1 9).length = 1 ∧
    brandRows (scheduleVerification [⟨1, 5, false⟩] 1 9) 1 ≤ 1 :=
  ⟨((brandRows_le_one [⟨1, 5, false⟩] 1 9).1 (by decide)).1,
    (brandRows_le_one [⟨1, 5, false⟩] 1 9).2.1 1 (by decide)⟩

/-- Counting helper: mapping a function over a list cannot raise a count
beyond a pointwise-dominating count on the original list. -/
theorem countP_map_le {α : Type} {l : List α} {f : α → α} {p q : α → Bool}
    (h : ∀ a ∈ l, p (f a) = true → q a = true) :
    (l.map f).countP p ≤ l.countP q := by
  induction l with
  | nil => simp
  | cons a t ih =>
    simp only [List.map_cons, List.countP_cons]
    have ht : (t.map f).countP p ≤ t.countP q :=
      ih (fun x hx => h x (List.mem_cons_of_mem a hx))
    by_cases hp : p (f a) = true
    · rw [if_pos hp, if_pos (h a (List.mem_cons_self a t) hp)]
      omega
    · have hp' : p (f a) = false := by simpa using hp
      rw [hp', if_neg (by simp : ¬ (false = true))]
      split <;> omega

/-- `Currency.save` preserves "at most one default currency" (assuming
primary keys are not duplicated, as the database guarantees). -/
theorem currencySave_atMostOne (rows : List CurrencyRow) (c : CurrencyRow)
    (hpk : rows.countP (fun r => r.id == c.id) ≤ 1)
    (h : defaultCount rows ≤ 1) : defaultCount (currencySave rows c) ≤ 1 := by
  unfold currencySave defaultCount at *
  by_cases hc : c.isDefault
  · simp only [if_pos hc]
    set rows1 := rows.map (fun r => if r.isDefault then { r with isDefault := false } else r)
      with hr1
    by_cases hex : (rows1.any fun r => r.id == c.id) = true
    · rw [if_pos hex]
      rw [hr1, List.map_map]
      refine le_trans (countP_map_le ?_) hpk
      intro r _
      simp only [Function.comp]
      by_cases hrd : r.isDefault <;> by_cases hid : r.id = c.id <;>
        simp [hrd, hid]
    · rw [if_neg hex]
      rw [List.countP_append]
      have hz : rows1.countP (fun r => r.isDefault) = 0 := by
        rw [List.countP_eq_zero]
        intro r hr
        rcases List.mem_map.mp hr with ⟨r', _, rfl⟩
        by_cases hrd : r'.isDefault <;> simp [hrd]
      rw [hz]
      simp [hc]
  · simp only [if_neg hc]
    by_cases hex : (rows.any fun r => r.id == c.id) = true
    · rw [if_pos hex]
      refine le_trans (countP_map_le ?_) h
      intro r _
      by_cases hid : r.id = c.id <;> simp [hid]
      intro hfalse
      exact absurd hfalse hc
    · rw [if_neg hex]
      rw [List.countP_append]
      have hcf : c.isDefault = false := by simpa using hc
      simp [hcf]
      omega

/-- Saving a default currency clears every other default as part of the
same operation: afterwards any default row carries the saved key. -/
theorem currencySave_clears (rows : List CurrencyRow) (c : CurrencyRow)
    (hc : c.isDefault = true) :
    ∀ r ∈ currencySave rows c, r.isDefault = true → r.id = c.id := by
  intro r hr hrd
  unfold currencySave at hr
  rw [if_pos hc] at hr
  by_cases hex : ((rows.map fun r => if r.isDefault then { r with isDefault := false } else r).any
      fun r => r.id == c.id) = true
  · rw [if_pos hex] at hr
    rcases List.mem_map.mp hr with ⟨r', hr', rfl⟩
    by_cases hid : r'.id = c.id
    · simp [hid]
    · rw [if_neg hid] at hrd
      rcases List.mem_map.mp hr' with ⟨r'', _, rfl⟩
      by_cases h2 : r''.isDefault
      · simp [h2] at hrd
      · simp [h2] at hrd
  · rw [if_neg hex] at hr
    rcases List.mem_append.mp hr with h | h
    · rcases List.mem_map.mp h with ⟨r'', _, rfl⟩
      by_cases h2 : r''.isDefault
      · simp [h2] at hrd
      · simp [h2] at hrd
    · simp at h
      subst h
      rfl

/-- `PaymentMethod.save` preserves "at most one default method per
influencer" (assuming primary keys are not duplicated). -/
theorem paymentMethodSave_atMostOne (rows : List PMRow) (m : PMRow)
    (hpk : rows.countP (fun r => r.id == m.id) ≤ 1) :
    ∀ i, pmDefaultCount rows i ≤ 1 → pmDefaultCount (paymentMethodSave rows m) i ≤ 1 := by
  intro i h
  unfold paymentMethodSave pmDefaultCount at *
  by_cases hm : m.isDefault
  · simp only [if_pos hm]
    set clearFn : PMRow → PMRow := fun r =>
      if r.influencer = m.influencer ∧ r.isDefault ∧ r.id ≠ m.id then
        { r with isDefault := false }
      else r with hclear
    by_cases hex : ((rows.map clearFn).any fun r => r.id == m.id) = true
    · rw [if_pos hex, List.map_map]
      by_cases hi : i = m.influencer
      · subst hi
        refine le_trans (countP_map_le ?_) hpk
        intro r _
        simp only [Function.comp, hclear]
        by_cases hcl : r.influencer = m.influencer ∧ r.isDefault ∧ r.id ≠ m.id
        · simp only [if_pos hcl]
          by_cases hid : r.id = m.id
          · simp [hid]
          · simp [hid]
        · simp only [if_neg hcl]
          by_cases hid : r.id = m.id
          · simp [hid]
          · simp only [if_neg hid]
            intro hp
            exfalso
            apply hcl
            simp at hp
            exact ⟨hp.1, hp.2, hid⟩
      · refine le_trans (countP_map_le ?_) h
        intro r _
        simp only [Function.comp, hclear]
        by_cases hcl : r.influencer = m.influencer ∧ r.isDefault ∧ r.id ≠ m.id
        · simp only [if_pos hcl]
          by_cases hid : r.id = m.id
          · simp [hid]
            intro hmi
            exact absurd hmi.symm hi
          · simp [hid]
        · simp only [if_neg hcl]
          by_cases hid : r.id = m.id
          · simp [hid]
            intro hmi
            exact absurd hmi.symm hi
          · simp [hid]
    · rw [if_neg hex, List.countP_append]
      have hnot : ∀ r ∈ rows, (r.id == m.id) = false := by
        intro r hr
        have hex' : ((rows.map clearFn).any fun r => r.id == m.id) = false := by simpa using hex
        have hmem : clearFn r ∈ rows.map clearFn := List.mem_map_of_mem clearFn hr
        have := List.any_eq_false.mp hex' _ hmem
        have hid : (clearFn r).id = r.id := by
          simp only [hclear]
          by_cases hcl : r.influencer = m.influencer ∧ r.isDefault ∧ r.id ≠ m.id <;> simp [hcl]
        simpa [hid] using this
      by_cases hi : i = m.influencer
      · subst hi
        have hz : (rows.map clearFn).countP
            (fun r => r.influencer == m.influencer && r.isDefault) = 0 := by
          rw [List.countP_eq_zero]
          intro r hr
          rcases List.mem_map.mp hr with ⟨r', hr', rfl⟩
          simp only [hclear]
          by_cases hcl : r'.influencer = m.influencer ∧ r'.isDefault ∧ r'.id ≠ m.id
          · simp [hcl]
          · simp only [if_neg hcl]
            intro hp
            simp at hp
            apply hcl
            refine ⟨hp.1, hp.2, ?_⟩
            intro hid
            have := hnot r' hr'
            simp [hid] at this
        rw [hz]
        simp only [List.countP_cons, List.countP_nil, Nat.zero_add]
        split <;> omega
      · have hle : (rows.map clearFn).countP (fun r => r.influencer == i && r.isDefault) ≤
            rows.countP (fun r => r.influencer == i && r.isDefault) := by
          refine countP_map_le ?_
          intro r _
          simp only [hclear]
          by_cases hcl : r.influencer = m.influencer ∧ r.isDefault ∧ r.id ≠ m.id <;> simp [hcl]
        have hm0 : (m.influencer == i && m.isDefault) = false := by
          have : (m.influencer == i) = false := by
            simp
            intro hmi
            exact absurd hmi.symm hi
          simp [this]
        have hm1 : List.countP (fun r => r.influencer == i && r.isDefault) [m] = 0 := by
          simp [List.countP_cons, hm0]
        rw [hm1]
        omega
  · simp only [if_neg hm]
    by_cases hex : (rows.any fun r => r.id == m.id) = true
    · rw [if_pos hex]
      refine le_trans (countP_map_le ?_) h
      intro r _
      by_cases hid : r.id = m.id
      · simp [hid]
        intro _ hmd
        exact absurd hmd hm
      · simp [hid]
    · rw [if_neg hex, List.countP_append]
      have hm0 : (m.influencer == i && m.isDefault) = false := by
        have : m.isDefault = false := by simpa using hm
        simp [this]
      have hm1 : List.countP (fun r => r.influencer == i && r.isDefault) [m] = 0 := by
        simp [List.countP_cons, hm0]
      rw [hm1]
      omega

/-- Saving a default payment method clears the influencer's other defaults
as part of the same operation. -/
theorem paymentMethodSave_clears (rows : List PMRow) (m : PMRow) (hm : m.isDefault = true) :
    ∀ r ∈ paymentMethodSave rows m, r.influencer = m.influencer → r.isDefault = true →
      r.id = m.id := by
  intro r hr hri hrd
  unfold paymentMethodSave at hr
  rw [if_pos hm] at hr
  set clearFn : PMRow → PMRow := fun r =>
    if r.influencer = m.influencer ∧ r.isDefault ∧ r.id ≠ m.id then
      { r with isDefault := false }
    else r with hclear
  by_cases hex : ((rows.map clearFn).any fun r => r.id == m.id) = true
  · rw [if_pos hex] at hr
    rcases List.mem_map.mp hr with ⟨r', hr', rfl⟩
    rcases List.mem_map.mp hr' with ⟨r'', _, rfl⟩
    by_cases hcl : r''.influencer = m.influencer ∧ r''.isDefault ∧ r''.id ≠ m.id
    · have hcf : clearFn r'' = { r'' with isDefault := false } := by simp [hclear, hcl]
      rw [hcf] at hri hrd ⊢
      by_cases hid : r''.id = m.id
      · exact absurd hid hcl.2.2
      · simp [hid] at hrd
    · have hcf : clearFn r'' = r'' := by simp [hclear, hcl]
      rw [hcf] at hri hrd ⊢
      by_cases hid : r''.id = m.id
      · simp [hid]
      · simp only [if_neg hid] at hri hrd ⊢
        exact absurd ⟨hri, hrd, hid⟩ hcl
  · rw [if_neg hex] at hr
    rcases List.mem_append.mp hr with h | h
    · rcases List.mem_map.mp h with ⟨r'', _, rfl⟩
      by_cases hcl : r''.influencer = m.influencer ∧ r''.isDefault ∧ r''.id ≠ m.id
      · have hcf : clearFn r'' = { r'' with isDefault := false } := by simp [hclear, hcl]
        rw [hcf] at hrd
        simp at hrd
      · have hcf : clearFn r'' = r'' := by simp [hclear, hcl]
        rw [hcf] at hri hrd
        by_cases hid : r''.id = m.id
        · rw [hcf]
          exact hid
        · exact absurd ⟨hri, hrd, hid⟩ hcl
    · simp at h
      subst h
      rfl

/-- C6: after every `Currency.save` at most one currency is flagged default
(and a newly saved default is the only default), and after every
`PaymentMethod.save` at most one of each influencer's methods is flagged
default (and a newly saved default is the influencer's only default).  The
primary-key hypotheses state that no key is duplicated, which the database
enforces. -/
theorem uniqueDefault_invariant (rows : List CurrencyRow) (c : CurrencyRow)
    (pms : List PMRow) (m : PMRow)
    (hpkC : rows.countP (fun r => r.id == c.id) ≤ 1)
    (hpkM : pms.countP (fun r => r.id == m.id) ≤ 1) :
    (defaultCount rows ≤ 1 → defaultCount (currencySave rows c) ≤ 1) ∧
    (c.isDefault = true → ∀ r ∈ currencySave rows c, r.isDefault = true → r.id = c.id) ∧
    (∀ i, pmDefaultCount pms i ≤ 1 → pmDefaultCount (paymentMethodSave pms m) i ≤ 1) ∧
    (m.isDefault = true → ∀ r ∈ paymentMethodSave pms m,
      r.influencer = m.influencer → r.isDefault = true → r.id = m.id) :=
  ⟨fun h => currencySave_atMostOne rows c hpkC h,
   fun hc => currencySave_clears rows c hc,
   fun i h => paymentMethodSave_atMostOne pms m hpkM i h,
   fun hm => paymentMethodSave_clears pms m hm⟩

/-- Witness for C6: making currency 2 the default while currency 1 was
default, and analogously for influencer 7's payment methods, leaves at most
one default each. -/
theorem uniqueDefault_invariant_witness :
    defaultCount (currencySave [⟨1, true⟩, ⟨2, false⟩] ⟨2, true⟩) ≤ 1 ∧
    pmDefaultCount (paymentMethodSave [⟨1, 7, true⟩, ⟨2, 7, false⟩] ⟨2, 7, true⟩) 7 ≤ 1 :=
  ⟨(uniqueDefault_invariant [⟨1, true⟩, ⟨2, false⟩] ⟨2, true⟩
      [⟨1, 7, true⟩, ⟨2, 7, false⟩] ⟨2, 7, true⟩ (by decide) (by decide)).1 (by decide),
   (uniqueDefault_invariant [⟨1, true⟩, ⟨2, false⟩] ⟨2, true⟩
      [⟨1, 7, true⟩, ⟨2, 7, false⟩] ⟨2, 7, true⟩ (by decide) (by decide)).2.2.1 7 (by decide)⟩

/-- C1: the campaign record, the wallet debit of exactly the budget and the
payment-transaction record commit as one atomic unit.  If the run fails —
at any of the three writes, in particular after the debit but before the
transaction record is saved — the state (and so `wallet_balance`) is left
exactly unchanged; if it succeeds, all three effects are visible. -/
theorem createCampaign_atomic (budget : ℚ) (cid : ℕ) (failAt : Option CCStep)
    (s : WalletState) :
    ((createCampaign budget cid failAt s).2 = false →
      (createCampaign budget cid failAt s).1 = s) ∧
    ((createCampaign budget cid failAt s).2 = true →
      (createCampaign budget cid failAt s).1.walletBalance = s.walletBalance - budget ∧
      (createCampaign budget cid failAt s).1.campaigns =
        s.campaigns ++ [⟨cid, budget, CampaignStatus.draft⟩] ∧
      (createCampaign budget cid failAt s).1.txns = s.txns ++ [⟨budget, cid, true⟩]) := by
  by_cases hbal : s.walletBalance < budget
  · simp [createCampaign, hbal]
  · rcases failAt with _ | step
    · simp [createCampaign, hbal, runAtomic, createCampaignBody, ccApply]
    · cases step <;>
        simp [createCampaign, hbal, runAtomic, createCampaignBody, ccApply]

/-- Witness for C1: with balance 100 and budget 50, a failure after the
debit (at the transaction-record save) leaves the balance at 100. -/
theorem createCampaign_atomic_witness :
    (createCampaign 50 1 (some CCStep.saveTxn) ⟨100, [], []⟩).1.walletBalance = 100 := by
  have h2 : (createCampaign 50 1 (some CCStep.saveTxn) ⟨100, [], []⟩).2 = false := by
    norm_num [createCampaign, runAtomic, createCampaignBody, ccApply]
  rw [(createCampaign_atomic 50 1 (some CCStep.saveTxn) ⟨100, [], []⟩).1 h2]

/-- C7: activating a draft campaign whose payment transaction already
exists changes only campaign statuses (the campaign with that id becomes
active) and leaves `wallet_balance` and the transaction records untouched:
no second debit. -/
theorem activate_existingTxn_frame (s : WalletState) (cid : ℕ) (camp : CampaignRec)
    (hfind : s.campaigns.find? (fun c => c.id == cid) = some camp)
    (hdraft : camp.status = CampaignStatus.draft)
    (hex : s.txns.any (fun t => t.isCampaignPayment && t.campaignId == cid) = true) :
    (activateCampaign s cid).walletBalance = s.walletBalance ∧
    (activateCampaign s cid).txns = s.txns ∧
    (activateCampaign s cid).campaigns =
      s.campaigns.map (fun c =>
        if c.id = cid then { c with status := CampaignStatus.active } else c) := by
  simp [activateCampaign, hfind, hdraft, hex]

/-- Witness for C7: a draft campaign with an existing transaction record
activates without touching the balance. -/
theorem activate_existingTxn_frame_witness :
    (activateCampaign ⟨100, [⟨1, 50, CampaignStatus.draft⟩], [⟨50, 1, true⟩]⟩ 1).walletBalance
      = 100 :=
  (activate_existingTxn_frame ⟨100, [⟨1, 50, CampaignStatus.draft⟩], [⟨50, 1, true⟩]⟩ 1
    ⟨1, 50, CampaignStatus.draft⟩ (by rfl) rfl (by rfl)).1

/-- C10: `convert_currency` returns its amount argument unchanged (no
rounding) whenever the two currencies resolve to the same code, whenever
either cannot be resolved, or whenever no default currency exists;
conversion and two-decimal rounding happen exactly when both resolve and
their codes differ (with a default currency present). -/
theorem convertCurrency_cases (table : List Curr) (amount : ℚ) (fromRef toRef : CurrRef) :
    ((resolveRef table fromRef = none ∨ resolveRef table toRef = none) →
      convertCurrency table amount fromRef toRef = amount) ∧
    (∀ f t, resolveRef table fromRef = some f → resolveRef table toRef = some t →
      f.code = t.code → convertCurrency table amount fromRef toRef = amount) ∧
    (getDefault table = none → convertCurrency table amount fromRef toRef = amount) ∧
    (∀ f t d, resolveRef table fromRef = some f → resolveRef table toRef = some t →
      f.code ≠ t.code → getDefault table = some d →
      convertCurrency table amount fromRef toRef =
        quantize2 (convStep2 d t (convStep1 d f amount))) := by
  refine ⟨?_, ?_, ?_, ?_⟩
  · rintro (h | h)
    · simp [convertCurrency, h]
    · rcases hf : resolveRef table fromRef with _ | f <;> simp [convertCurrency, h, hf]
  · intro f t hf ht hco
    simp [convertCurrency, hf, ht, hco]
  · intro hd
    rcases hf : resolveRef table fromRef with _ | f <;>
      rcases ht : resolveRef table toRef with _ | t <;>
      simp [convertCurrency, hf, ht, hd]
  · intro f t d hf ht hco hd
    simp [convertCurrency, hf, ht, hco, hd]

/-- Witness for C10: converting between two currency objects with the same
code returns the amount unchanged (even with a default currency present). -/
theorem convertCurrency_cases_witness :
    convertCurrency [⟨"GHS", 1, true⟩] (7 / 2)
      (CurrRef.byObj ⟨"USD", 15, false⟩) (CurrRef.byObj ⟨"USD", 15, false⟩) = 7 / 2 :=
  (convertCurrency_cases [⟨"GHS", 1, true⟩] (7 / 2)
      (CurrRef.byObj ⟨"USD", 15, false⟩) (CurrRef.byObj ⟨"USD", 15, false⟩)).2.1
    ⟨"USD", 15, false⟩ ⟨"USD", 15, false⟩ rfl rfl rfl

/-- C8: accepting a campaign (verified connection, not yet accepted, count
at or above the minimum, non-empty package) creates exactly one Submission
and, together with it, exactly one Payout with status pending whose amount
is the campaign budget divided by `package_videos`, converted from the
campaign's currency to the influencer's settlement currency. -/
theorem acceptCampaign_payout (table : List Curr) (inf : InfProfile) (camp : CampaignOffer)
    (conn : ConnRow) (minFollowers today : ℕ)
    (subs : List SubmissionRec) (payouts : List PayoutRec)
    (hnew : subs.any (fun s => s.influencer == inf.id && s.campaign == camp.id) = false)
    (hfoll : minFollowers ≤ connCount conn)
    (hpv : 0 < camp.packageVideos) :
    acceptCampaign table inf camp (some conn) minFollowers today subs payouts =
      (subs ++ [⟨inf.id, camp.id, SubStatus.new⟩],
       payouts ++ [⟨inf.id, camp.id,
         convertCurrency table (camp.budget / camp.packageVideos)
           (refOfOpt (orDefault table camp.brandCurrency))
           (refOfOpt (orDefault table inf.currency)),
         camp.dueDate.getD (today + 30), PayoutStatus.pending⟩]) := by
  simp [acceptCampaign, hnew, hfoll, hpv]

/-- Witness for C8: budget 100 over a 4-video package in a single-currency
setup yields one pending payout of 25. -/
theorem acceptCampaign_payout_witness :
    acceptCampaign [⟨"GHS", 1, true⟩] ⟨9, some ⟨"GHS", 1, true⟩⟩
        ⟨3, 100, 4, some ⟨"GHS", 1, true⟩, none⟩
        (some ⟨2000, some 2500, "handle", none, 0⟩) 1000 0 [] [] =
      ([⟨9, 3, SubStatus.new⟩], [⟨9, 3, 25, 30, PayoutStatus.pending⟩]) := by
  rw [acceptCampaign_payout _ _ _ _ _ _ _ _ (by rfl) (by norm_num [connCount]) (by norm_num)]
  norm_num [convertCurrency, resolveRef, refOfOpt, orDefault, getDefault]

set_option maxRecDepth 8000 in
/-- The intended outcome of the spec's brand scenario, computed by the
check bodies on the industry string "Technology": company name "Acme Inc",
a 60-character description, a well-formed contact email, no phone and no
website give confidence (1.0 + 1.0 + 1.0 + 0.5) / 4 — the website category
excluded from the denominator — and a pass.  The deployed call site never
reaches this computation: see `brandVerify_crashes`. -/
theorem brandScenario_pass (desc email : String)
    (hdesc : (strTrim desc).length = 60)
    (hemail : emailFormatOk email = true) (hne : email ≠ "") :
    (verifyBrand "Acme Inc" "Technology" desc email "" none).confidence
        = (1 + 1 + 1 + 1 / 2) / 4 ∧
    (verifyBrand "Acme Inc" "Technology" desc email "" none).passed = true := by
  have h0 : desc ≠ "" := by
    intro h
    rw [h] at hdesc
    exact absurd hdesc (by decide)
  have hname : verifyCompanyName "Acme Inc" = (true, 1, []) := rfl
  have hind : verifyIndustry "Technology" = (true, 1, []) := rfl
  have hdv : (verifyDescription desc).1 = true := by
    simp [verifyDescription, h0, hdesc]
  have hds : (verifyDescription desc).2.1 = 1 := by
    simp [verifyDescription, h0, hdesc]
  obtain ⟨fl, hdfull⟩ : ∃ fl, verifyDescription desc = (true, 1, fl) := by
    refine ⟨(verifyDescription desc).2.2, ?_⟩
    conv_lhs => rw [show verifyDescription desc =
      ((verifyDescription desc).1, (verifyDescription desc).2.1,
        (verifyDescription desc).2.2) from rfl]
    rw [hdv, hds]
  have hcon : verifyContactInfo email "" = (true, 1 / 2, ["No phone number provided"]) := by
    simp [verifyContactInfo, hne, hemail]
    norm_num
  constructor <;>
    (simp only [verifyBrand, hname, hind, hdfull, hcon]; norm_num)

/-- `brandScenario_pass` at a concrete 60-character description and a
concrete valid email. -/
theorem brandScenario_pass_witness :
    (verifyBrand "Acme Inc" "Technology" (String.mk (List.replicate 60 'a'))
        "contact@acme.com" "" none).passed = true :=
  (brandScenario_pass (String.mk (List.replicate 60 'a')) "contact@acme.com"
    (by decide) (by decide) (by decide)).2

/-- C9: the code, not the claim, is at fault.  On exactly the claim's brand
— company name "Acme Inc", the Industry row "Technology" selected, a
60-character description, a valid contact email, no phone, no website —
`verify_brand` raises `AttributeError` inside the industry check, because
it passes the `Industry` ForeignKey instance where the check body expects
a string; the caller catches the exception and the brand is never scored,
so the claimed confidence 0.875 and pass are never produced (the spec's
scenario computes them from the industry name — see
`brandScenario_pass`). -/
theorem brandVerify_crashes :
    verifyBrandFk "Acme Inc" (some ⟨"Technology"⟩)
        (String.mk (List.replicate 60 'a')) "contact@acme.com" "" none
      = .error "AttributeError: Industry object has no attribute strip" := rfl

end PushIt
